import Mathlib

/-!
Verification of the configuration-resolution and citation-parsing services of
the PythonRag application (`python_rag_app/services/configuration_service.py`
and `python_rag_app/services/citation_parser.py`).

The Python code is shallowly embedded: Python values produced by `json.loads`
become the inductive `Json`; Python dictionaries become association lists with
first-match lookup (adequate, since decoded dictionaries have unique keys);
Python `str | None` values become `Option String`; Python exceptions become an
`Except PyExc` result.  `json.loads` itself is third-party and is abstracted as
a parameter `loads : String → Option Json`, where `none` stands for a raised
`json.JSONDecodeError`.
-/

namespace PythonRag

/-- A decoded Python JSON value (output of `json.loads`).  `null` also stands
for the Python value `None`.  Numbers are modelled as integers; no claim
depends on fractional values. -/
inductive Json where
  | null
  | bool (b : Bool)
  | num (n : Int)
  | str (s : String)
  | arr (elems : List Json)
  | obj (fields : List (String × Json))
deriving Repr

/-- The Python exceptions that can arise during `parse_citations`.
`jsonDecodeError` stands for `json.JSONDecodeError`. -/
inductive PyExc where
  | jsonDecodeError
  | keyError
  | indexError
  | attributeError
  | typeError
deriving Repr, DecidableEq

/-- Python truthiness (`bool(x)`) of a decoded JSON value. -/
def Json.truthy : Json → Bool
  | .null => false
  | .bool b => b
  | .num n => n != 0
  | .str s => s != ""
  | .arr l => !l.isEmpty
  | .obj l => !l.isEmpty

/-- Python `x.get(key, default)`.  Only dictionaries have a `.get` method;
every other value raises `AttributeError`. -/
def Json.get : Json → String → Json → Except PyExc Json
  | .obj fields, key, default => .ok ((fields.lookup key).getD default)
  | _, _, _ => .error .attributeError

/-- Python `x[0]` (the subscript taken in `choices[0]`).  Lists and strings
index positionally (`IndexError` when empty), a dictionary looks up the integer
key `0` (`KeyError`, since decoded keys are strings), anything else raises
`TypeError`. -/
def Json.subscriptZero : Json → Except PyExc Json
  | .arr [] => .error .indexError
  | .arr (x :: _) => .ok x
  | .str s =>
    match s.data with
    | [] => .error .indexError
    | c :: _ => .ok (.str (String.mk [c]))
  | .obj _ => .error .keyError
  | _ => .error .typeError

/-- Python iteration (`for x in v`).  Lists yield their elements, strings their
one-character substrings, dictionaries their keys; `None`, booleans and numbers
are not iterable (`TypeError`). -/
def Json.iterate : Json → Except PyExc (List Json)
  | .arr l => .ok l
  | .str s => .ok (s.data.map (fun c => .str (String.mk [c])))
  | .obj fields => .ok (fields.map (fun p => .str p.1))
  | _ => .error .typeError

/-- A `Citation` exactly as `parse_citations` builds it: each field holds the
raw decoded value returned by `citation_element.get(...)` (`null` both when the
key is absent and when it maps to JSON null, matching Python's `.get` with its
implicit `None` default). -/
structure RawCitation where
  title : Json
  file_path : Json
  content : Json

/-- Whether an exception is caught by the `except (json.JSONDecodeError,
KeyError, IndexError)` clause of `parse_citations`. -/
def caughtByParse : PyExc → Bool
  | .jsonDecodeError => true
  | .keyError => true
  | .indexError => true
  | .attributeError => false
  | .typeError => false

/-- The body of the `for citation_element in citations_array` loop:
`Citation(title=citation_element.get("title"), file_path=..., content=...)`.
Python's one-argument `.get` defaults to `None`. -/
def parse_citation_element (citation_element : Json) : Except PyExc RawCitation := do
  let title ← citation_element.get "title" .null
  let file_path ← citation_element.get "filepath" .null
  let content ← citation_element.get "content" .null
  pure (RawCitation.mk title file_path content)

/-- The `for citation_element in citations_array` loop itself: each element is
parsed and appended in order; the first exception raised by a loop body
propagates. -/
def parse_elements : List Json → Except PyExc (List RawCitation)
  | [] => .ok []
  | citation_element :: rest =>
    (parse_citation_element citation_element).bind fun citation =>
      (parse_elements rest).map fun citations => citation :: citations

/-- `CitationParser.parse_citations`, embedded from
`citation_parser.py` lines 41-79.  `loads` abstracts `json.loads`
(`none` = raised `JSONDecodeError`); the `Option String` input covers the
`None` argument exercised by the tests.  A caught exception can only occur
before the first `citations.append` (the loop body raises only
`AttributeError`, which is not caught), so the partial list returned by the
Python `except ... pass; return citations` path is always the empty list. -/
def parse_citations (loads : String → Option Json) (json_response : Option String) :
    Except PyExc (List RawCitation) :=
  match json_response with
  | none => .ok []
  | some s =>
    if s = "" then .ok []
    else
      let attempt : Except PyExc (List RawCitation) :=
        match loads s with
        | none => .error .jsonDecodeError
        | some data =>
          (data.get "choices" (.arr [])).bind fun choices =>
            if !choices.truthy then .ok []
            else
              choices.subscriptZero.bind fun first_choice =>
                (first_choice.get "message" (.obj [])).bind fun message =>
                  (message.get "context" (.obj [])).bind fun context =>
                    (context.get "citations" (.arr [])).bind fun citations_array =>
                      citations_array.iterate.bind fun elems =>
                        parse_elements elems
      match attempt with
      | .ok citations => .ok citations
      | .error e => if caughtByParse e then .ok [] else .error e

/-- The `Citation` dataclass at the level of its declared field types
(`title: str | None`, `file_path: str | None`, `content: str | None`,
all defaulting to `None`). -/
structure Citation where
  title : Option String := none
  file_path : Option String := none
  content : Option String := none

/-- Python truthiness of a `str | None` value: `None` and `""` are falsy. -/
def pyTruthy : Option String → Bool
  | none => false
  | some s => s != ""

/-- Python `a or b` on a `str | None` left operand with a string fallback:
returns `a` when truthy, else `b`. -/
def pyOr (a : Option String) (b : String) : String :=
  match a with
  | none => b
  | some s => if s = "" then b else s

/-- The `Citation.display_title` property:
`self.title or self.file_path or "Unknown Document"`. -/
def Citation.display_title (c : Citation) : String :=
  pyOr c.title (pyOr c.file_path "Unknown Document")

/-- `CitationParser.truncate_content` (lines 100-116).  The `Option String`
input covers the `None` argument exercised by the tests; `content[:max_length]`
slices by character. -/
def truncate_content (content : Option String) (max_length : Nat) : String :=
  match content with
  | none => ""
  | some c =>
    if c = "" then ""
    else if c.length ≤ max_length then c
    else c.take max_length ++ "..."

/-- `CitationParser.format_citation` (lines 81-98).  The call
`self.truncate_content(citation.content)` uses the Python default
`max_length = 150`. -/
def format_citation (citation : Citation) (number : Int) : String :=
  let display_title := pyOr citation.title (pyOr citation.file_path ("Document " ++ toString number))
  let result := "  [" ++ toString number ++ "] " ++ display_title
  if pyTruthy citation.content then
    result ++ "\n      " ++ truncate_content citation.content 150
  else
    result

/-- The `RagConfiguration` dataclass (configuration_service.py lines 9-17). -/
structure RagConfiguration where
  azure_openai_endpoint : String := ""
  chat_deployment : String := "gpt-4"
  search_endpoint : String := ""
  search_index : String := ""
  search_api_key : String := ""
deriving Repr, DecidableEq

/-- `ConfigurationService._get_config_value` (lines 86-104).  `config` is the
service's `self._config` dictionary and `env` the process environment, both as
partial string maps (`dict.get(k, "")` and `os.environ.get(k, "")` become
`(m k).getD ""`); `env_var_key = none` is the Python `None` argument. -/
def get_config_value (config env : String → Option String)
    (config_key : String) (env_var_key : Option String) (default : String) : String :=
  let value := (config config_key).getD ""
  if value ≠ "" then value
  else
    match env_var_key with
    | some k =>
      let v := (env k).getD ""
      if v ≠ "" then v else default
    | none => default

/-- `ConfigurationService.load_configuration` (lines 49-67).  Note the
`chat_deployment` field is fetched with `env_var_key = None` and default
`"gpt-4"`. -/
def load_configuration (config env : String → Option String) : RagConfiguration :=
  { azure_openai_endpoint :=
      get_config_value config env "AzureOpenAI:Endpoint" (some "AZURE_OPENAI_ENDPOINT") ""
    chat_deployment :=
      get_config_value config env "AzureOpenAI:ChatDeployment" none "gpt-4"
    search_endpoint :=
      get_config_value config env "AzureSearch:Endpoint" (some "AZURE_SEARCH_ENDPOINT") ""
    search_index :=
      get_config_value config env "AzureSearch:IndexName" (some "AZURE_SEARCH_INDEX_NAME") ""
    search_api_key :=
      get_config_value config env "AzureSearch:ApiKey" (some "AZURE_SEARCH_API_KEY") "" }

/-- `ConfigurationService.validate_configuration` (lines 69-84), preserving the
append order of `missing_settings`. -/
def validate_configuration (config : RagConfiguration) : Bool × List String :=
  let missing : List String := []
  let missing := if config.azure_openai_endpoint = "" then missing ++ ["AZURE_OPENAI_ENDPOINT"] else missing
  let missing := if config.search_endpoint = "" then missing ++ ["AZURE_SEARCH_ENDPOINT"] else missing
  let missing := if config.search_index = "" then missing ++ ["AZURE_SEARCH_INDEX_NAME"] else missing
  (missing.length == 0, missing)

/-! ## Helper lemmas about configuration resolution -/

/-- Unfolding equation for `_get_config_value` with an environment key. -/
theorem get_config_value_some_eq (config env : String → Option String)
    (config_key k default : String) :
    get_config_value config env config_key (some k) default =
      if (config config_key).getD "" ≠ "" then (config config_key).getD ""
      else if (env k).getD "" ≠ "" then (env k).getD "" else default := rfl

/-- Unfolding equation for `_get_config_value` with `env_var_key=None`. -/
theorem get_config_value_none_eq (config env : String → Option String)
    (config_key default : String) :
    get_config_value config env config_key none default =
      if (config config_key).getD "" ≠ "" then (config config_key).getD ""
      else default := rfl

/-- When the settings dictionary holds a non-empty value, `_get_config_value`
returns it without consulting the environment. -/
theorem get_config_value_of_settings (config env : String → Option String)
    (config_key : String) (env_var_key : Option String) (default : String)
    (h : (config config_key).getD "" ≠ "") :
    get_config_value config env config_key env_var_key default = (config config_key).getD "" := by
  cases env_var_key with
  | none => rw [get_config_value_none_eq, if_pos h]
  | some k => rw [get_config_value_some_eq, if_pos h]

/-- `_get_config_value` depends only on the settings entry at `config_key` and
the environment entry at `env_var_key`. -/
theorem get_config_value_congr (config config' env env' : String → Option String)
    (config_key : String) (env_var_key : Option String) (default : String)
    (hc : config config_key = config' config_key)
    (he : ∀ k, env_var_key = some k → env k = env' k) :
    get_config_value config env config_key env_var_key default =
      get_config_value config' env' config_key env_var_key default := by
  cases env_var_key with
  | none => rw [get_config_value_none_eq, get_config_value_none_eq, hc]
  | some k => rw [get_config_value_some_eq, get_config_value_some_eq, hc, he k rfl]

/-- When the settings entry is absent or empty, `_get_config_value` with a
`None` environment key returns the default. -/
theorem get_config_value_none_env (config env : String → Option String)
    (config_key : String) (default : String)
    (h : (config config_key).getD "" = "") :
    get_config_value config env config_key none default = default := by
  rw [get_config_value_none_eq, if_neg (fun hne => hne h)]

/-! ## Claims -/

/-- C8: `load_configuration` with an empty settings map and an empty
environment returns the per-field defaults: `chat_deployment = "gpt-4"` and
every other field the empty string. -/
theorem load_configuration_empty_sources_yields_defaults :
    load_configuration (fun _ => none) (fun _ => none) =
      { azure_openai_endpoint := ""
        chat_deployment := "gpt-4"
        search_endpoint := ""
        search_index := ""
        search_api_key := "" } := rfl

/-- C2 counterexample: with an empty settings map and the environment variable
`AZURE_OPENAI_CHAT_DEPLOYMENT` set to the non-empty value `"gpt-4-turbo"`,
the claim requires `chat_deployment = "gpt-4-turbo"`, but `load_configuration`
resolves it to `"gpt-4"`: the environment tier is never consulted for this
field (`_get_config_value` is called with `env_var_key=None`). -/
theorem chat_deployment_env_var_counterexample :
    (load_configuration (fun _ => none)
        (fun k => if k = "AZURE_OPENAI_CHAT_DEPLOYMENT" then some "gpt-4-turbo" else none)).chat_deployment
        = "gpt-4" ∧
    (load_configuration (fun _ => none)
        (fun k => if k = "AZURE_OPENAI_CHAT_DEPLOYMENT" then some "gpt-4-turbo" else none)).chat_deployment
        ≠ "gpt-4-turbo" := by
  refine ⟨rfl, ?_⟩
  intro h
  rw [show (load_configuration (fun _ => none)
      (fun k => if k = "AZURE_OPENAI_CHAT_DEPLOYMENT" then some "gpt-4-turbo" else none)).chat_deployment
      = "gpt-4" from rfl] at h
  simp at h

/-- C2 (amended): for the `chat_deployment` field the environment is never
consulted; whenever the settings entry `"AzureOpenAI:ChatDeployment"` is
absent or empty, the resolved value is the default `"gpt-4"` regardless of the
environment. -/
theorem chat_deployment_resolution (config env : String → Option String)
    (h : (config "AzureOpenAI:ChatDeployment").getD "" = "") :
    (load_configuration config env).chat_deployment = "gpt-4" :=
  get_config_value_none_env config env "AzureOpenAI:ChatDeployment" "gpt-4" h

/-- C2 witness: concrete instance of `chat_deployment_resolution` with an
environment that does set `AZURE_OPENAI_CHAT_DEPLOYMENT`. -/
theorem chat_deployment_resolution_witness :
    (load_configuration (fun _ => none)
        (fun k => if k = "AZURE_OPENAI_CHAT_DEPLOYMENT" then some "gpt-4-turbo" else none)).chat_deployment
        = "gpt-4" :=
  chat_deployment_resolution (fun _ => none)
    (fun k => if k = "AZURE_OPENAI_CHAT_DEPLOYMENT" then some "gpt-4-turbo" else none) rfl

/-- The five field projections of `load_configuration`, as calls to
`_get_config_value`. -/
theorem load_configuration_fields (S E : String → Option String) :
    (load_configuration S E).azure_openai_endpoint =
      get_config_value S E "AzureOpenAI:Endpoint" (some "AZURE_OPENAI_ENDPOINT") "" ∧
    (load_configuration S E).chat_deployment =
      get_config_value S E "AzureOpenAI:ChatDeployment" none "gpt-4" ∧
    (load_configuration S E).search_endpoint =
      get_config_value S E "AzureSearch:Endpoint" (some "AZURE_SEARCH_ENDPOINT") "" ∧
    (load_configuration S E).search_index =
      get_config_value S E "AzureSearch:IndexName" (some "AZURE_SEARCH_INDEX_NAME") "" ∧
    (load_configuration S E).search_api_key =
      get_config_value S E "AzureSearch:ApiKey" (some "AZURE_SEARCH_API_KEY") "" :=
  ⟨rfl, rfl, rfl, rfl, rfl⟩

/-- C3: two-part per-field precedence for `load_configuration`.  First part
(override): whenever the settings map `S` holds a non-empty value under a
field's settings key, that field resolves to the settings value, and the
environment is not consulted for it (the field is the same under any two
environments).  Second part (independence): each field depends only on its own
settings key and its own environment key, so a settings map that supplies only
one field leaves every other field's resolution — including its environment
lookup — unchanged. -/
theorem load_configuration_per_field_precedence
    (S S' E E' : String → Option String) :
    (((S "AzureOpenAI:Endpoint").getD "" ≠ "" →
        (load_configuration S E).azure_openai_endpoint = (S "AzureOpenAI:Endpoint").getD "" ∧
        (load_configuration S E).azure_openai_endpoint = (load_configuration S E').azure_openai_endpoint) ∧
      ((S "AzureOpenAI:ChatDeployment").getD "" ≠ "" →
        (load_configuration S E).chat_deployment = (S "AzureOpenAI:ChatDeployment").getD "" ∧
        (load_configuration S E).chat_deployment = (load_configuration S E').chat_deployment) ∧
      ((S "AzureSearch:Endpoint").getD "" ≠ "" →
        (load_configuration S E).search_endpoint = (S "AzureSearch:Endpoint").getD "" ∧
        (load_configuration S E).search_endpoint = (load_configuration S E').search_endpoint) ∧
      ((S "AzureSearch:IndexName").getD "" ≠ "" →
        (load_configuration S E).search_index = (S "AzureSearch:IndexName").getD "" ∧
        (load_configuration S E).search_index = (load_configuration S E').search_index) ∧
      ((S "AzureSearch:ApiKey").getD "" ≠ "" →
        (load_configuration S E).search_api_key = (S "AzureSearch:ApiKey").getD "" ∧
        (load_configuration S E).search_api_key = (load_configuration S E').search_api_key)) ∧
    ((S "AzureOpenAI:Endpoint" = S' "AzureOpenAI:Endpoint" →
        E "AZURE_OPENAI_ENDPOINT" = E' "AZURE_OPENAI_ENDPOINT" →
        (load_configuration S E).azure_openai_endpoint = (load_configuration S' E').azure_openai_endpoint) ∧
      (S "AzureOpenAI:ChatDeployment" = S' "AzureOpenAI:ChatDeployment" →
        (load_configuration S E).chat_deployment = (load_configuration S' E').chat_deployment) ∧
      (S "AzureSearch:Endpoint" = S' "AzureSearch:Endpoint" →
        E "AZURE_SEARCH_ENDPOINT" = E' "AZURE_SEARCH_ENDPOINT" →
        (load_configuration S E).search_endpoint = (load_configuration S' E').search_endpoint) ∧
      (S "AzureSearch:IndexName" = S' "AzureSearch:IndexName" →
        E "AZURE_SEARCH_INDEX_NAME" = E' "AZURE_SEARCH_INDEX_NAME" →
        (load_configuration S E).search_index = (load_configuration S' E').search_index) ∧
      (S "AzureSearch:ApiKey" = S' "AzureSearch:ApiKey" →
        E "AZURE_SEARCH_API_KEY" = E' "AZURE_SEARCH_API_KEY" →
        (load_configuration S E).search_api_key = (load_configuration S' E').search_api_key)) := by
  have hf := fun (A B : String → Option String) => load_configuration_fields A B
  refine ⟨⟨?_, ?_, ?_, ?_, ?_⟩, ⟨?_, ?_, ?_, ?_, ?_⟩⟩ <;>
    simp only [(hf S E).1, (hf S E).2.1, (hf S E).2.2.1, (hf S E).2.2.2.1, (hf S E).2.2.2.2,
      (hf S E').1, (hf S E').2.1, (hf S E').2.2.1, (hf S E').2.2.2.1, (hf S E').2.2.2.2,
      (hf S' E').1, (hf S' E').2.1, (hf S' E').2.2.1, (hf S' E').2.2.2.1, (hf S' E').2.2.2.2]
  · intro h
    exact ⟨get_config_value_of_settings S E _ _ _ h,
      (get_config_value_of_settings S E _ _ _ h).trans
        (get_config_value_of_settings S E' _ _ _ h).symm⟩
  · intro h
    exact ⟨get_config_value_of_settings S E _ _ _ h,
      (get_config_value_of_settings S E _ _ _ h).trans
        (get_config_value_of_settings S E' _ _ _ h).symm⟩
  · intro h
    exact ⟨get_config_value_of_settings S E _ _ _ h,
      (get_config_value_of_settings S E _ _ _ h).trans
        (get_config_value_of_settings S E' _ _ _ h).symm⟩
  · intro h
    exact ⟨get_config_value_of_settings S E _ _ _ h,
      (get_config_value_of_settings S E _ _ _ h).trans
        (get_config_value_of_settings S E' _ _ _ h).symm⟩
  · intro h
    exact ⟨get_config_value_of_settings S E _ _ _ h,
      (get_config_value_of_settings S E _ _ _ h).trans
        (get_config_value_of_settings S E' _ _ _ h).symm⟩
  · intro hc he
    exact get_config_value_congr S S' E E' _ _ _ hc (fun k hk => (Option.some.inj hk) ▸ he)
  · intro hc
    exact get_config_value_congr S S' E E' _ _ _ hc (fun k hk => Option.noConfusion hk)
  · intro hc he
    exact get_config_value_congr S S' E E' _ _ _ hc (fun k hk => (Option.some.inj hk) ▸ he)
  · intro hc he
    exact get_config_value_congr S S' E E' _ _ _ hc (fun k hk => (Option.some.inj hk) ▸ he)
  · intro hc he
    exact get_config_value_congr S S' E E' _ _ _ hc (fun k hk => (Option.some.inj hk) ▸ he)

/-- C3 witness: a settings map supplying only `"AzureOpenAI:Endpoint"` makes
that field resolve to the settings value even though the environment differs,
and leaves the `search_endpoint` resolution identical to the one obtained with
an empty settings map. -/
theorem load_configuration_per_field_precedence_witness :
    (load_configuration (fun k => if k = "AzureOpenAI:Endpoint" then some "https://cfg" else none)
        (fun _ => some "https://env")).azure_openai_endpoint = "https://cfg" ∧
    (load_configuration (fun k => if k = "AzureOpenAI:Endpoint" then some "https://cfg" else none)
        (fun _ => some "https://env")).search_endpoint =
      (load_configuration (fun _ => none) (fun _ => some "https://env")).search_endpoint :=
  ⟨((load_configuration_per_field_precedence
      (fun k => if k = "AzureOpenAI:Endpoint" then some "https://cfg" else none)
      (fun _ => none) (fun _ => some "https://env") (fun _ => some "https://env")).1.1
      (by decide)).1,
   (load_configuration_per_field_precedence
      (fun k => if k = "AzureOpenAI:Endpoint" then some "https://cfg" else none)
      (fun _ => none) (fun _ => some "https://env") (fun _ => some "https://env")).2.2.2.1
      (by decide) rfl⟩

/-- C4: `validate_configuration` checks exactly the three required fields.
The returned flag is true iff the missing list is empty; each canonical name
appears in the missing list exactly when the corresponding field is empty; the
missing list is a sublist of the canonical three-element list in its fixed
order; and the result never depends on `search_api_key` or `chat_deployment`.
The embedding is a total pure function on an immutable record, so the "never
raises, does not mutate" part holds by construction. -/
theorem validate_configuration_checks_required_triple (c : RagConfiguration) :
    ((validate_configuration c).1 = true ↔ (validate_configuration c).2 = []) ∧
    (validate_configuration c).2.Sublist
      ["AZURE_OPENAI_ENDPOINT", "AZURE_SEARCH_ENDPOINT", "AZURE_SEARCH_INDEX_NAME"] ∧
    ("AZURE_OPENAI_ENDPOINT" ∈ (validate_configuration c).2 ↔ c.azure_openai_endpoint = "") ∧
    ("AZURE_SEARCH_ENDPOINT" ∈ (validate_configuration c).2 ↔ c.search_endpoint = "") ∧
    ("AZURE_SEARCH_INDEX_NAME" ∈ (validate_configuration c).2 ↔ c.search_index = "") ∧
    (∀ key deployment, validate_configuration
        { c with search_api_key := key, chat_deployment := deployment } =
      validate_configuration c) := by
  by_cases h1 : c.azure_openai_endpoint = "" <;>
  by_cases h2 : c.search_endpoint = "" <;>
  by_cases h3 : c.search_index = "" <;>
    simp [validate_configuration, h1, h2, h3]

/-- C10: presence is decided by string truthiness with no trimming.  A
configuration whose three required fields are non-empty strings of whitespace
validates as `(true, [])`, and a whitespace-only (hence non-empty) tier-1
settings value wins over any environment value in `_get_config_value`. -/
theorem whitespace_only_counts_as_present (c : RagConfiguration)
    (S E : String → Option String) (config_key : String) (env_var_key : Option String)
    (default w : String)
    (h1 : c.azure_openai_endpoint ≠ "")
    (_h1w : ∀ ch ∈ c.azure_openai_endpoint.data, ch.isWhitespace = true)
    (h2 : c.search_endpoint ≠ "")
    (_h2w : ∀ ch ∈ c.search_endpoint.data, ch.isWhitespace = true)
    (h3 : c.search_index ≠ "")
    (_h3w : ∀ ch ∈ c.search_index.data, ch.isWhitespace = true)
    (hS : S config_key = some w)
    (hw : w ≠ "")
    (_hww : ∀ ch ∈ w.data, ch.isWhitespace = true) :
    validate_configuration c = (true, []) ∧
    get_config_value S E config_key env_var_key default = w := by
  constructor
  · simp [validate_configuration, h1, h2, h3]
  · have : (S config_key).getD "" = w := by rw [hS]; rfl
    rw [get_config_value_of_settings S E config_key env_var_key default (this ▸ hw), this]

/-- C10 witness: a configuration of single-space required fields validates,
and a single-space settings value for `"AzureSearch:Endpoint"` beats the
environment value `"https://real"`. -/
theorem whitespace_only_counts_as_present_witness :
    validate_configuration
        { azure_openai_endpoint := " "
          chat_deployment := "gpt-4"
          search_endpoint := " "
          search_index := " "
          search_api_key := "" } = (true, []) ∧
    get_config_value (fun k => if k = "AzureSearch:Endpoint" then some " " else none)
        (fun _ => some "https://real") "AzureSearch:Endpoint"
        (some "AZURE_SEARCH_ENDPOINT") "" = " " :=
  whitespace_only_counts_as_present
    { azure_openai_endpoint := " "
      chat_deployment := "gpt-4"
      search_endpoint := " "
      search_index := " "
      search_api_key := "" }
    (fun k => if k = "AzureSearch:Endpoint" then some " " else none)
    (fun _ => some "https://real") "AzureSearch:Endpoint"
    (some "AZURE_SEARCH_ENDPOINT") "" " "
    (by decide) (by decide) (by decide) (by decide) (by decide) (by decide)
    (by decide) (by decide) (by decide)

/-- C6: `truncate_content` returns `""` on `None` and on the empty string,
returns the content unchanged when its length is at most `maxLength` (so a
content of length exactly `maxLength` is not truncated), and otherwise returns
the first `maxLength` characters followed by `"..."`, a string of length
`maxLength + 3`. -/
theorem truncate_content_spec (content : Option String) (maxLength : Nat)
    (_hpos : 0 < maxLength) :
    truncate_content none maxLength = "" ∧
    truncate_content (some "") maxLength = "" ∧
    (∀ c, content = some c → c.length ≤ maxLength → truncate_content content maxLength = c) ∧
    (∀ c, content = some c → maxLength < c.length →
      truncate_content content maxLength = c.take maxLength ++ "..." ∧
      (truncate_content content maxLength).length = maxLength + 3) := by
  refine ⟨rfl, by simp [truncate_content], ?_, ?_⟩
  · rintro c rfl hle
    by_cases hc : c = ""
    · subst hc; simp [truncate_content]
    · simp [truncate_content, hc, hle]
  · rintro c rfl hgt
    have hc : c ≠ "" := by
      intro h
      subst h
      exact absurd hgt (Nat.not_lt.mpr (Nat.zero_le _))
    have hnle : ¬ c.length ≤ maxLength := Nat.not_le.mpr hgt
    have heq : truncate_content (some c) maxLength = c.take maxLength ++ "..." := by
      simp [truncate_content, hc, hnle]
    refine ⟨heq, ?_⟩
    rw [heq, String.length_append, String.take_eq]
    show (c.data.take maxLength).length + 3 = maxLength + 3
    have hgt' : maxLength < c.data.length := hgt
    rw [List.length_take]
    omega

/-- C6 witness: `truncate_content` at `"xxxxx"` with `maxLength = 3`. -/
theorem truncate_content_spec_witness :
    truncate_content (some "xxxxx") 3 = "xxx" ++ "..." ∧
    (truncate_content (some "xxxxx") 3).length = 3 + 3 :=
  (truncate_content_spec (some "xxxxx") 3 (by decide)).2.2.2 "xxxxx" rfl (by decide)

/-- C9: the `display_title` property equals the title when the title is
non-empty, else the file path when that is non-empty, else the literal
`"Unknown Document"` (a `str | None` field is "empty" when it is `None` or
`""`). -/
theorem display_title_precedence (c : Citation) :
    (∀ t, c.title = some t → t ≠ "" → c.display_title = t) ∧
    ((c.title = none ∨ c.title = some "") →
      ∀ p, c.file_path = some p → p ≠ "" → c.display_title = p) ∧
    ((c.title = none ∨ c.title = some "") → (c.file_path = none ∨ c.file_path = some "") →
      c.display_title = "Unknown Document") := by
  refine ⟨?_, ?_, ?_⟩
  · rintro t ht hne
    simp [Citation.display_title, pyOr, ht, hne]
  · rintro (ht | ht) p hp hne <;> simp [Citation.display_title, pyOr, ht, hp, hne]
  · rintro (ht | ht) (hp | hp) <;> simp [Citation.display_title, pyOr, ht, hp]

/-- C9 witness: a citation with no title and no file path displays as
`"Unknown Document"`. -/
theorem display_title_precedence_witness :
    Citation.display_title { title := none, file_path := none, content := none } =
      "Unknown Document" :=
  (display_title_precedence { title := none, file_path := none, content := none }).2.2
    (Or.inl rfl) (Or.inl rfl)

/-- The non-empty-string view of a `str | None` value: `none` when the value
is `None` or `""`. -/
def nonEmptyStr : Option String → Option String
  | none => none
  | some s => if s = "" then none else some s

/-- The output of `formatCitation` as the spec describes it: line 1 is exactly
two spaces, `"["`, the ordinal, `"] "`, then the display title resolved as the
title if non-empty, else the file path if non-empty, else `"Document "`
followed by the ordinal (not the `display_title` property's
`"Unknown Document"`); when the content is non-empty a second line follows,
made of a newline, six spaces and the content truncated to the default maximum
of 150; otherwise the output is exactly line 1. -/
def format_citation_described (c : Citation) (n : Int) : String :=
  let displayTitle :=
    match nonEmptyStr c.title with
    | some t => t
    | none =>
      match nonEmptyStr c.file_path with
      | some p => p
      | none => "Document " ++ toString n
  let line1 := "  [" ++ toString n ++ "] " ++ displayTitle
  match nonEmptyStr c.content with
  | none => line1
  | some _ => line1 ++ "\n      " ++ truncate_content c.content 150

/-- C7: for every citation and positive ordinal, `format_citation` produces
exactly the rendering described by the spec (`format_citation_described`). -/
theorem format_citation_matches_spec (c : Citation) (n : Int) (_hn : 0 < n) :
    format_citation c n = format_citation_described c n := by
  obtain ⟨t, p, ct⟩ := c
  have cases3 : ∀ s : Option String, s = none ∨ s = some "" ∨ ∃ x, s = some x ∧ x ≠ "" := by
    rintro (_ | s)
    · exact Or.inl rfl
    · by_cases h : s = ""
      · exact Or.inr (Or.inl (by rw [h]))
      · exact Or.inr (Or.inr ⟨s, rfl, h⟩)
  rcases cases3 t with rfl | rfl | ⟨x, rfl, hx⟩ <;>
  rcases cases3 p with rfl | rfl | ⟨y, rfl, hy⟩ <;>
  rcases cases3 ct with rfl | rfl | ⟨z, rfl, hz⟩ <;>
    simp [format_citation, format_citation_described, nonEmptyStr, pyOr, pyTruthy, *]

/-- C7 witness: the two-line rendering of a citation with title and content at
ordinal 1. -/
theorem format_citation_matches_spec_witness :
    format_citation
        { title := some "Health Plan Guide", file_path := none,
          content := some "This is the content" } 1 =
      format_citation_described
        { title := some "Health Plan Guide", file_path := none,
          content := some "This is the content" } 1 :=
  format_citation_matches_spec
    { title := some "Health Plan Guide", file_path := none,
      content := some "This is the content" } 1 (by decide)

/-! ## Helper lemmas about citation parsing -/

/-- The field stored for a well-shaped (dictionary) citation element, `null`
when the key is absent. -/
def elementField (el : Json) (key : String) : Json :=
  match el with
  | .obj fields => (fields.lookup key).getD .null
  | _ => .null

/-- On a dictionary element the loop body succeeds with the three lookups. -/
theorem parse_citation_element_obj (fields : List (String × Json)) :
    parse_citation_element (.obj fields) =
      .ok (RawCitation.mk ((fields.lookup "title").getD .null)
        ((fields.lookup "filepath").getD .null) ((fields.lookup "content").getD .null)) := rfl

/-- When every citation element is a dictionary, the loop succeeds and maps
each element to its three fields, preserving order. -/
theorem parse_elements_all_obj (elems : List Json)
    (h : ∀ el ∈ elems, ∃ fields, el = Json.obj fields) :
    parse_elements elems =
      .ok (elems.map fun el =>
        RawCitation.mk (elementField el "title") (elementField el "filepath")
          (elementField el "content")) := by
  induction elems with
  | nil => rfl
  | cons x xs ih =>
    obtain ⟨fields, hx⟩ := h x (List.mem_cons_self x xs)
    subst hx
    rw [parse_elements, parse_citation_element_obj,
      ih (fun el hel => h el (List.mem_cons_of_mem _ hel))]
    rfl

/-- C1: the universal never-raises guarantee fails.  The four specific inputs
of the claim do yield the empty list, but the JSON document `"3"` — a
structurally malformed document consisting of a JSON number at top level,
which `json.loads` decodes to the integer `3` — makes `parse_citations` raise
`AttributeError` (from `data.get("choices", [])` on a non-dictionary), an
exception not caught by the `except (JSONDecodeError, KeyError, IndexError)`
clause. -/
theorem parse_citations_attribute_error_escapes :
    parse_citations (fun _ => none) none = .ok [] ∧
    parse_citations (fun _ => none) (some "") = .ok [] ∧
    parse_citations (fun _ => none) (some "not json") = .ok [] ∧
    parse_citations
        (fun s => if s = "\x7b\"choices\": []\x7d" then some (.obj [("choices", .arr [])]) else none)
        (some "\x7b\"choices\": []\x7d") = .ok [] ∧
    parse_citations (fun s => if s = "3" then some (.num 3) else none) (some "3") =
      .error .attributeError := by
  refine ⟨rfl, ?_, ?_, ?_, ?_⟩ <;> rfl

/-- C5 counterexample: at the document `{"choices": [{"message": 5}]}` the
`message` level is wrongly shaped (an integer), so the claim requires the
empty list, but `parse_citations` raises `AttributeError` (from
`message.get("context", {})` on the integer 5) instead of returning a list. -/
theorem parse_citations_wrong_shape_counterexample :
    parse_citations
        (fun s => if s = "\x7b\"choices\": [\x7b\"message\": 5\x7d]\x7d"
          then some (.obj [("choices", .arr [.obj [("message", .num 5)]])]) else none)
        (some "\x7b\"choices\": [\x7b\"message\": 5\x7d]\x7d") = .error .attributeError ∧
    parse_citations
        (fun s => if s = "\x7b\"choices\": [\x7b\"message\": 5\x7d]\x7d"
          then some (.obj [("choices", .arr [.obj [("message", .num 5)]])]) else none)
        (some "\x7b\"choices\": [\x7b\"message\": 5\x7d]\x7d") ≠ .ok [] := by
  refine ⟨rfl, ?_⟩
  intro h
  rw [show parse_citations
      (fun s => if s = "\x7b\"choices\": [\x7b\"message\": 5\x7d]\x7d"
        then some (.obj [("choices", .arr [.obj [("message", .num 5)]])]) else none)
      (some "\x7b\"choices\": [\x7b\"message\": 5\x7d]\x7d") = .error .attributeError from rfl] at h
  exact Except.noConfusion h

/-- C5 (amended): on a document that decodes to a dictionary, `parse_citations`
traverses first element of `choices` → `message` → `context` → `citations`;
an absent `choices` key or an empty `choices` list yields the empty list; when
the traversal levels are dictionaries (absent keys falling back to the
defaults `{}` and `[]`) and every citation element is a dictionary, it returns
one citation per element in order, with `title`, `filepath` and `content`
looked up in the element and `null` when absent.  (A wrongly-shaped level
raises instead of yielding the empty list — see the counterexample.) -/
theorem parse_citations_wellformed (loads : String → Option Json) (s : String)
    (docFields : List (String × Json))
    (hs : s ≠ "") (hload : loads s = some (.obj docFields)) :
    (docFields.lookup "choices" = none → parse_citations loads (some s) = .ok []) ∧
    (docFields.lookup "choices" = some (.arr []) → parse_citations loads (some s) = .ok []) ∧
    (∀ choiceFields rest msgFields ctxFields citeElems,
      docFields.lookup "choices" = some (.arr (Json.obj choiceFields :: rest)) →
      (choiceFields.lookup "message").getD (.obj []) = .obj msgFields →
      (msgFields.lookup "context").getD (.obj []) = .obj ctxFields →
      (ctxFields.lookup "citations").getD (.arr []) = .arr citeElems →
      (∀ el ∈ citeElems, ∃ fields, el = Json.obj fields) →
      parse_citations loads (some s) =
        .ok (citeElems.map fun el =>
          RawCitation.mk (elementField el "title") (elementField el "filepath")
            (elementField el "content"))) := by
  refine ⟨?_, ?_, ?_⟩
  · intro hch
    simp [parse_citations, hs, hload, Json.get, hch, Json.truthy, Except.bind]
  · intro hch
    simp [parse_citations, hs, hload, Json.get, hch, Json.truthy, Except.bind]
  · intro choiceFields rest msgFields ctxFields citeElems hch hmsg hctx hcit helems
    simp [parse_citations, hs, hload, Json.get, hch, Json.truthy, Json.subscriptZero,
      hmsg, hctx, hcit, Json.iterate, Except.bind, parse_elements_all_obj citeElems helems]

/-- C5 witness: a document with two well-shaped citations (mirroring the
repository's test fixture) parses to the two citations in order, with the
`filepath` key feeding `file_path` and missing keys becoming `null`. -/
theorem parse_citations_wellformed_witness :
    parse_citations
        (fun s => if s = "response" then
          some (.obj [("choices", .arr [.obj [("message", .obj [
            ("content", .str "Test response"),
            ("context", .obj [("citations", .arr [
              .obj [("title", .str "Northwind Health Plus"),
                    ("filepath", .str "docs/health-plus.pdf"),
                    ("content", .str "Coverage details")],
              .obj [("title", .str "Standard Plan Guide")]])])])]])])
          else none)
        (some "response") =
      .ok [RawCitation.mk (.str "Northwind Health Plus") (.str "docs/health-plus.pdf")
             (.str "Coverage details"),
           RawCitation.mk (.str "Standard Plan Guide") .null .null] :=
  (parse_citations_wellformed
      (fun s => if s = "response" then
        some (.obj [("choices", .arr [.obj [("message", .obj [
          ("content", .str "Test response"),
          ("context", .obj [("citations", .arr [
            .obj [("title", .str "Northwind Health Plus"),
                  ("filepath", .str "docs/health-plus.pdf"),
                  ("content", .str "Coverage details")],
            .obj [("title", .str "Standard Plan Guide")]])])])]])])
        else none)
      "response" _ (by decide) rfl).2.2 _ _ _ _ _ rfl rfl rfl rfl
    (by
      intro el hel
      rcases List.mem_cons.mp hel with rfl | hel2
      · exact ⟨_, rfl⟩
      · rcases List.mem_cons.mp hel2 with rfl | hel3
        · exact ⟨_, rfl⟩
        · cases hel3)

end PythonRag
